import Mathlib

/-!
Verification of the layout and placement-planning engine of the boxwrap
GIMP plugin (src/boxwrap.py).  The pure arithmetic of the plugin
(unit conversion, the two coordinate-grid generators, the placement
tables, the crop-mark rectangles and the control flow of the two
builders) is embedded as executable Lean definitions; the raster
backend (pixel copying, layers, display) is represented by a trace of
abstract drawing operations, so that claims about ordering, skipping
and aborting of drawing steps become statements about the trace.
All pixel quantities are unbounded integers, exactly as Python ints.
-/

namespace Boxwrap

/-- Semantics of the Python 2 builtin `round` on a rational input:
nearest integer, ties rounded away from zero.  `int(round(x))` in the
source is exactly this value. -/
def pythonRound (q : ℚ) : ℤ := if 0 ≤ q then ⌊q + 1/2⌋ else ⌈q - 1/2⌉

/-- Rounding to the nearest integer with ties away from zero, written
the way the spec describes it (negative inputs: round the absolute
value, then negate).  Used only to compare with `pythonRound`. -/
def round_half_away_from_zero (q : ℚ) : ℤ :=
  if 0 ≤ q then ⌊q + 1/2⌋ else -⌊-q + 1/2⌋

/-- Fixed resolution constant from the source (`DPI = 300.0`). -/
def DPI : ℚ := 300

/-- Source function `mm_to_px`: `int(round(mm / 25.4 * DPI))`. -/
def mm_to_px (mm : ℚ) : ℤ := pythonRound (mm / 25.4 * DPI)

/-- Source function `px_to_mm`: `(px * 25.4) / DPI` (exact rational). -/
def px_to_mm (px : ℚ) : ℚ := (px * 25.4) / DPI

/-- Enumerated corner constants from class `Corner` in the source.
They are plain integers in the source, so the embedding keeps them as
integers; an invalid corner is any other integer. -/
def Corner.TOP_LEFT : ℤ := 1

def Corner.TOP_RIGHT : ℤ := 2

def Corner.BOTTOM_LEFT : ℤ := 3

def Corner.BOTTOM_RIGHT : ℤ := 4

def Corner.CENTER : ℤ := 5

/-- Enumerated direction constants from class `Direction` in the source. -/
def Direction.LEFT : ℤ := 1

def Direction.RIGHT : ℤ := 2

def Direction.UP : ℤ := 3

def Direction.DOWN : ℤ := 4

/-- An axis-aligned pixel rectangle given by its top-left corner and size. -/
structure Rect where
  x : ℤ
  y : ℤ
  w : ℤ
  h : ℤ
deriving DecidableEq, Repr

/-- Membership of the pixel (px, py) in a rectangle (half-open on both axes). -/
def Rect.containsPt (r : Rect) (px py : ℤ) : Prop :=
  r.x ≤ px ∧ px < r.x + r.w ∧ r.y ≤ py ∧ py < r.y + r.h

instance (r : Rect) (px py : ℤ) : Decidable (r.containsPt px py) :=
  inferInstanceAs (Decidable
    (r.x ≤ px ∧ px < r.x + r.w ∧ r.y ≤ py ∧ py < r.y + r.h))

/-- Two rectangles are disjoint when no pixel lies in both. -/
def rect_disjoint (r1 r2 : Rect) : Prop :=
  ∀ px py : ℤ, ¬(r1.containsPt px py ∧ r2.containsPt px py)

/-- Source function `move_drawable_to`: given the current bounding box
of a drawable (left, top, width, height) and a target corner/position,
it computes the translation to apply.  The final `else` branch of the
source reports a message and returns without translating; this is the
`none` result. -/
def move_drawable_to (left top width height corner x y : ℤ) :
    Option (ℤ × ℤ) :=
  let right := left + width
  let bottom := top + height
  if corner = Corner.TOP_LEFT then some (x - left, y - top)
  else if corner = Corner.TOP_RIGHT then some (x - right, y - top)
  else if corner = Corner.BOTTOM_LEFT then some (x - left, y - bottom)
  else if corner = Corner.BOTTOM_RIGHT then some (x - right, y - bottom)
  else if corner = Corner.CENTER then
    some (x - Int.fdiv (left + right) 2, y - Int.fdiv (top + bottom) 2)
  else none

/-- Abstract backend operations recorded by the embedding.  Each
constructor corresponds to one pdb/gimp call issued by the source. -/
inductive Op where
  | message : Op
  | selectRect : Rect → Op
  | copyVisible : Op
  | selectionNone : Op
  | paste : Op
  | rotate : ℤ → Op
  | translate : ℤ → ℤ → Op
  | anchor : Op
  | fillRect : Rect → Op
deriving DecidableEq, Repr

/-- Trace of `move_drawable_to`: a translate call, or a reported
message with no translation when the corner is invalid. -/
def move_ops (left top width height corner x y : ℤ) : List Op :=
  match move_drawable_to left top width height corner x y with
  | some (dx, dy) => [Op.translate dx dy]
  | none => [Op.message]

/-- Size of the bounding box of a floating selection after the
rotation step of `copy_and_rotate_rectangle`: 90 and 270 degree
rotations swap width and height, every other angle keeps them. -/
def rotatedSize (w h angle : ℤ) : ℤ × ℤ :=
  if angle = 90 ∨ angle = 270 then (h, w) else (w, h)

/-- Trace of the source function `copy_and_rotate_rectangle`: select
the source rectangle, copy, drop the selection, paste as floating
selection, rotate it only when the angle is one of the three keys of
the `angles` dict, then move (via `move_drawable_to`) and anchor.
`left`/`top` stand for the backend-chosen position of the pasted
floating selection before it is moved. -/
def copy_and_rotate_rectangle (left top : ℤ) (src : Rect)
    (dstX dstY corner angle : ℤ) : List Op :=
  [Op.selectRect src, Op.copyVisible, Op.selectionNone, Op.paste]
  ++ (if angle = 90 ∨ angle = 180 ∨ angle = 270 then [Op.rotate angle] else [])
  ++ move_ops left top (rotatedSize src.w src.h angle).1
       (rotatedSize src.w src.h angle).2 corner dstX dstY
  ++ [Op.anchor]

/-- The tick rectangle drawn by `draw_mark` for one direction, or
`none` for an invalid direction (the `else` branch of the source). -/
def mark_rect (direction x0 y0 size distance : ℤ) : Option Rect :=
  if direction = Direction.UP then
    some ⟨x0 - 1, y0 - distance - size, 2, size⟩
  else if direction = Direction.DOWN then
    some ⟨x0 - 1, y0 + distance, 2, size⟩
  else if direction = Direction.LEFT then
    some ⟨x0 - distance - size, y0 - 1, size, 2⟩
  else if direction = Direction.RIGHT then
    some ⟨x0 + distance, y0 - 1, size, 2⟩
  else none

/-- Trace of the source function `draw_mark`: one select/fill/deselect
triple per direction, in order; an invalid direction reports a message
and returns from the whole function, skipping the remaining directions
of the same mark. -/
def draw_mark (directions : List ℤ) (x0 y0 size distance : ℤ) : List Op :=
  match directions with
  | [] => []
  | d :: ds =>
    match mark_rect d x0 y0 size distance with
    | some r => [Op.selectRect r, Op.fillRect r, Op.selectionNone]
        ++ draw_mark ds x0 y0 size distance
    | none => [Op.message]

/-- Source function `template_coordinates`: the 5-point grids of the
cross-shaped template layout.  Python // is floor division. -/
def template_coordinates (box_width box_height box_depth : ℤ) :
    List ℤ × List ℤ :=
  let x0 : ℤ := 0
  let x1 := x0 + box_depth
  let x2 := x1 + box_width
  let x3 := x2 + box_depth
  let x4 := x3 + box_width
  let y0 : ℤ := 0
  let y1 := y0 + box_depth
  let y2 := y1 + Int.fdiv box_height 2
  let y3 := y1 + box_height
  let y4 := y3 + box_depth
  ([x0, x1, x2, x3, x4], [y0, y1, y2, y3, y4])

/-- Source function `wrap_coordinates`: the 12-point grids of the wrap
layout. -/
def wrap_coordinates (box_width box_height box_depth thickness
    inside_size flap_size crop_mark_size crop_mark_distance : ℤ) :
    List ℤ × List ℤ :=
  let half_box_height := Int.fdiv box_height 2
  let x1 := crop_mark_size + crop_mark_distance
  let x2 := x1 + inside_size
  let x3 := x2 + thickness
  let x5 := x3 + half_box_height
  let x4 := x5 - flap_size
  let x6 := x5 + box_width
  let x7 := x6 + flap_size
  let x8 := x6 + half_box_height
  let x9 := x8 + thickness
  let x10 := x9 + inside_size
  let x11 := x10 + crop_mark_distance + crop_mark_size
  let y1 := crop_mark_size + crop_mark_distance
  let y2 := y1 + inside_size
  let y3 := y2 + thickness
  let y4 := y3 + half_box_height
  let y5 := y4 + flap_size
  let y7 := y4 + box_depth
  let y6 := y7 - flap_size
  let y8 := y7 + half_box_height
  let y9 := y8 + thickness
  let y10 := y9 + inside_size
  let y11 := y10 + crop_mark_distance + crop_mark_size
  ([0, x1, x2, x3, x4, x5, x6, x7, x8, x9, x10, x11],
   [0, y1, y2, y3, y4, y5, y6, y7, y8, y9, y10, y11])

/-- Decidable test that a list of pixel breakpoints is strictly
increasing. -/
def strictly_increasing : List ℤ → Bool
  | [] => true
  | [_] => true
  | a :: b :: t => a < b && strictly_increasing (b :: t)

/-- One row of a copy-and-rotate table of `create_wraps`:
(src rectangle, dst anchor point, dst corner, rotation angle). -/
structure CopyDef where
  src : Rect
  dstX : ℤ
  dstY : ℤ
  corner : ℤ
  angle : ℤ
deriving DecidableEq, Repr

/-- The `copy_and_rotate_definitions_top` table of `create_wraps`,
rows in source order: Top, Left, Front, Right, Back. -/
def copy_and_rotate_definitions_top (box_width box_height box_depth
    thickness inside_size flap_size crop_mark_size crop_mark_distance : ℤ) :
    List CopyDef :=
  let hbpe := Int.fdiv box_height 2 + thickness + inside_size
  let src_xs := (template_coordinates box_width box_height box_depth).1
  let src_ys := (template_coordinates box_width box_height box_depth).2
  let dst_xs := (wrap_coordinates box_width box_height box_depth thickness
    inside_size flap_size crop_mark_size crop_mark_distance).1
  let dst_ys := (wrap_coordinates box_width box_height box_depth thickness
    inside_size flap_size crop_mark_size crop_mark_distance).2
  [⟨⟨src_xs.getD 1 0, src_ys.getD 0 0, box_width, box_depth⟩,
    dst_xs.getD 5 0, dst_ys.getD 4 0, Corner.TOP_LEFT, 0⟩,
   ⟨⟨src_xs.getD 0 0, src_ys.getD 1 0, box_depth, hbpe⟩,
    dst_xs.getD 5 0, dst_ys.getD 4 0, Corner.TOP_RIGHT, 90⟩,
   ⟨⟨src_xs.getD 1 0, src_ys.getD 1 0, box_width, hbpe⟩,
    dst_xs.getD 5 0, dst_ys.getD 7 0, Corner.TOP_LEFT, 0⟩,
   ⟨⟨src_xs.getD 2 0, src_ys.getD 1 0, box_depth, hbpe⟩,
    dst_xs.getD 6 0, dst_ys.getD 4 0, Corner.TOP_LEFT, 270⟩,
   ⟨⟨src_xs.getD 3 0, src_ys.getD 1 0, box_width, hbpe⟩,
    dst_xs.getD 5 0, dst_ys.getD 4 0, Corner.BOTTOM_LEFT, 180⟩]

/-- The `copy_and_rotate_definitions_bottom` table of `create_wraps`,
rows in source order: Left, Front, Right, Back, Bottom. -/
def copy_and_rotate_definitions_bottom (box_width box_height box_depth
    thickness inside_size flap_size crop_mark_size crop_mark_distance : ℤ) :
    List CopyDef :=
  let hbpe := Int.fdiv box_height 2 + thickness + inside_size
  let src_xs := (template_coordinates box_width box_height box_depth).1
  let src_ys := (template_coordinates box_width box_height box_depth).2
  let dst_xs := (wrap_coordinates box_width box_height box_depth thickness
    inside_size flap_size crop_mark_size crop_mark_distance).1
  let dst_ys := (wrap_coordinates box_width box_height box_depth thickness
    inside_size flap_size crop_mark_size crop_mark_distance).2
  [⟨⟨src_xs.getD 0 0, src_ys.getD 3 0 - hbpe, box_depth, hbpe⟩,
    dst_xs.getD 5 0, dst_ys.getD 4 0, Corner.TOP_RIGHT, 270⟩,
   ⟨⟨src_xs.getD 1 0, src_ys.getD 3 0 - hbpe, box_width, hbpe⟩,
    dst_xs.getD 5 0, dst_ys.getD 1 0, Corner.TOP_LEFT, 0⟩,
   ⟨⟨src_xs.getD 2 0, src_ys.getD 3 0 - hbpe, box_depth, hbpe⟩,
    dst_xs.getD 6 0, dst_ys.getD 4 0, Corner.TOP_LEFT, 90⟩,
   ⟨⟨src_xs.getD 3 0, src_ys.getD 3 0 - hbpe, box_width, hbpe⟩,
    dst_xs.getD 5 0, dst_ys.getD 10 0, Corner.BOTTOM_LEFT, 180⟩,
   ⟨⟨src_xs.getD 1 0, src_ys.getD 3 0, box_width, box_depth⟩,
    dst_xs.getD 5 0, dst_ys.getD 4 0, Corner.TOP_LEFT, 0⟩]

/-- The four secondary flap copies of the `draw` closure, in source
order.  Their source rectangles are read from the destination sheet
itself (they are addressed with wrap-grid coordinates dst_xs/dst_ys). -/
def secondary_defs (dst_xs dst_ys : List ℤ) (hbpe flap_size : ℤ) :
    List CopyDef :=
  [⟨⟨dst_xs.getD 1 0, dst_ys.getD 4 0, hbpe, flap_size⟩,
    dst_xs.getD 5 0, dst_ys.getD 4 0, Corner.BOTTOM_RIGHT, 90⟩,
   ⟨⟨dst_xs.getD 1 0, dst_ys.getD 6 0, hbpe, flap_size⟩,
    dst_xs.getD 5 0, dst_ys.getD 7 0, Corner.TOP_RIGHT, 270⟩,
   ⟨⟨dst_xs.getD 6 0, dst_ys.getD 4 0, hbpe, flap_size⟩,
    dst_xs.getD 6 0, dst_ys.getD 4 0, Corner.BOTTOM_LEFT, 270⟩,
   ⟨⟨dst_xs.getD 6 0, dst_ys.getD 6 0, hbpe, flap_size⟩,
    dst_xs.getD 6 0, dst_ys.getD 7 0, Corner.TOP_LEFT, 90⟩]

/-- Trace of one copy-and-rotate table row. -/
def copy_def_ops (left top : ℤ) (d : CopyDef) : List Op :=
  copy_and_rotate_rectangle left top d.src d.dstX d.dstY d.corner d.angle

/-- Trace of the part of the `draw` closure that runs after the table
loop: the four secondary flap copies followed by the twelve crop
marks and the final deselection. -/
def sheet_rest (left top : ℤ) (dst_xs dst_ys : List ℤ)
    (hbpe flap_size crop_mark_size crop_mark_distance : ℤ) : List Op :=
  ((secondary_defs dst_xs dst_ys hbpe flap_size).map
      (copy_def_ops left top)).flatten
  ++ draw_mark [Direction.UP, Direction.LEFT]
       (dst_xs.getD 4 0) (dst_ys.getD 1 0) crop_mark_size crop_mark_distance
  ++ draw_mark [Direction.UP]
       (dst_xs.getD 5 0) (dst_ys.getD 1 0) crop_mark_size crop_mark_distance
  ++ draw_mark [Direction.UP]
       (dst_xs.getD 6 0) (dst_ys.getD 1 0) crop_mark_size crop_mark_distance
  ++ draw_mark [Direction.UP, Direction.RIGHT]
       (dst_xs.getD 7 0) (dst_ys.getD 1 0) crop_mark_size crop_mark_distance
  ++ draw_mark [Direction.UP, Direction.LEFT]
       (dst_xs.getD 1 0) (dst_ys.getD 4 0) crop_mark_size crop_mark_distance
  ++ draw_mark [Direction.UP, Direction.RIGHT]
       (dst_xs.getD 10 0) (dst_ys.getD 4 0) crop_mark_size crop_mark_distance
  ++ draw_mark [Direction.DOWN, Direction.LEFT]
       (dst_xs.getD 1 0) (dst_ys.getD 7 0) crop_mark_size crop_mark_distance
  ++ draw_mark [Direction.DOWN, Direction.RIGHT]
       (dst_xs.getD 10 0) (dst_ys.getD 7 0) crop_mark_size crop_mark_distance
  ++ draw_mark [Direction.DOWN, Direction.LEFT]
       (dst_xs.getD 4 0) (dst_ys.getD 10 0) crop_mark_size crop_mark_distance
  ++ draw_mark [Direction.DOWN]
       (dst_xs.getD 5 0) (dst_ys.getD 10 0) crop_mark_size crop_mark_distance
  ++ draw_mark [Direction.DOWN]
       (dst_xs.getD 6 0) (dst_ys.getD 10 0) crop_mark_size crop_mark_distance
  ++ draw_mark [Direction.DOWN, Direction.RIGHT]
       (dst_xs.getD 7 0) (dst_ys.getD 10 0) crop_mark_size crop_mark_distance
  ++ [Op.selectionNone]

/-- Trace of the `draw` closure of `create_wraps` for one destination
sheet: the copy-and-rotate table rows in order, then the rest. -/
def draw_trace (left top : ℤ) (dst_xs dst_ys : List ℤ)
    (hbpe flap_size crop_mark_size crop_mark_distance : ℤ)
    (defs : List CopyDef) : List Op :=
  (defs.map (copy_def_ops left top)).flatten
  ++ sheet_rest left top dst_xs dst_ys hbpe flap_size
       crop_mark_size crop_mark_distance

/-- Width of the template image predicted by `template_coordinates`
(`src_xs[-1] - src_xs[0]` in the source). -/
def predicted_width (box_width box_height box_depth : ℤ) : ℤ :=
  (template_coordinates box_width box_height box_depth).1.getD 4 0
  - (template_coordinates box_width box_height box_depth).1.getD 0 0

/-- Height of the template image predicted by `template_coordinates`
(`src_ys[-1] - src_ys[0]` in the source). -/
def predicted_height (box_width box_height box_depth : ℤ) : ℤ :=
  (template_coordinates box_width box_height box_depth).2.getD 4 0
  - (template_coordinates box_width box_height box_depth).2.getD 0 0

/-- The eight numbers interpolated into the size-mismatch message of
`create_wraps`, in the order they are interpolated: expected size in
pixels, expected size in millimetres, actual size in pixels, actual
size in millimetres. -/
structure SizeMismatch where
  expected_px_w : ℤ
  expected_px_h : ℤ
  expected_mm_w : ℚ
  expected_mm_h : ℚ
  actual_px_w : ℤ
  actual_px_h : ℤ
  actual_mm_w : ℚ
  actual_mm_h : ℚ
deriving DecidableEq, Repr

/-- Source function `create_wraps`, with the raster backend abstracted
to traces: all inputs are converted from millimetres to pixels, both
grids are computed, and if the supplied source image size differs from
the size predicted for the template the function reports the mismatch
(with expected and actual sizes in pixels and millimetres) and returns
without any drawing; otherwise it produces the drawing traces of the
top and the bottom wrap sheets.  `left`/`top` of pasted floating
selections are taken as 0 (they only affect translate deltas). -/
def create_wraps (src_image_w src_image_h : ℤ)
    (box_width_mm box_height_mm box_depth_mm thickness_mm flap_size_mm
     inside_size_mm crop_mark_size_mm crop_mark_distance_mm : ℚ) :
    Except SizeMismatch (List Op × List Op) :=
  let box_width := mm_to_px box_width_mm
  let box_height := mm_to_px box_height_mm
  let box_depth := mm_to_px box_depth_mm
  let thickness := mm_to_px thickness_mm
  let flap_size := mm_to_px flap_size_mm
  let inside_size := mm_to_px inside_size_mm
  let crop_mark_size := mm_to_px crop_mark_size_mm
  let crop_mark_distance := mm_to_px crop_mark_distance_mm
  let hbpe := Int.fdiv box_height 2 + thickness + inside_size
  let src_image_width := predicted_width box_width box_height box_depth
  let src_image_height := predicted_height box_width box_height box_depth
  let dst_xs := (wrap_coordinates box_width box_height box_depth thickness
    inside_size flap_size crop_mark_size crop_mark_distance).1
  let dst_ys := (wrap_coordinates box_width box_height box_depth thickness
    inside_size flap_size crop_mark_size crop_mark_distance).2
  if src_image_w ≠ src_image_width ∨ src_image_h ≠ src_image_height then
    .error ⟨src_image_width, src_image_height,
      px_to_mm (src_image_width : ℚ), px_to_mm (src_image_height : ℚ),
      src_image_w, src_image_h,
      px_to_mm (src_image_w : ℚ), px_to_mm (src_image_h : ℚ)⟩
  else
    .ok (draw_trace 0 0 dst_xs dst_ys hbpe flap_size crop_mark_size
           crop_mark_distance
           (copy_and_rotate_definitions_top box_width box_height box_depth
             thickness inside_size flap_size crop_mark_size
             crop_mark_distance),
         draw_trace 0 0 dst_xs dst_ys hbpe flap_size crop_mark_size
           crop_mark_distance
           (copy_and_rotate_definitions_bottom box_width box_height box_depth
             thickness inside_size flap_size crop_mark_size
             crop_mark_distance))

/-- Bounding box of a drawable after the translation computed by
`move_drawable_to` has been applied; `none` when the corner is
invalid and the drawable stays where it was pasted. -/
def apply_move (left top width height corner x y : ℤ) : Option Rect :=
  (move_drawable_to left top width height corner x y).map
    (fun d => ⟨left + d.1, top + d.2, width, height⟩)

/-- Destination bounding box of one copy-and-rotate table row: the
source rectangle is rotated (swapping its sides for 90/270) and then
moved so that the stated corner sits on the anchor point. -/
def dest_bbox (left top : ℤ) (d : CopyDef) : Option Rect :=
  apply_move left top (rotatedSize d.src.w d.src.h d.angle).1
    (rotatedSize d.src.w d.src.h d.angle).2 d.corner d.dstX d.dstY

/-- Validity of a corner value: membership in the closed enumerated set. -/
def Corner.valid (c : ℤ) : Prop :=
  c = Corner.TOP_LEFT ∨ c = Corner.TOP_RIGHT ∨ c = Corner.BOTTOM_LEFT
  ∨ c = Corner.BOTTOM_RIGHT ∨ c = Corner.CENTER

instance (c : ℤ) : Decidable (Corner.valid c) :=
  inferInstanceAs (Decidable
    (c = Corner.TOP_LEFT ∨ c = Corner.TOP_RIGHT ∨ c = Corner.BOTTOM_LEFT
     ∨ c = Corner.BOTTOM_RIGHT ∨ c = Corner.CENTER))

/-- Validity of a direction value: membership in the closed enumerated set. -/
def Direction.valid (d : ℤ) : Prop :=
  d = Direction.LEFT ∨ d = Direction.RIGHT ∨ d = Direction.UP
  ∨ d = Direction.DOWN

instance (d : ℤ) : Decidable (Direction.valid d) :=
  inferInstanceAs (Decidable
    (d = Direction.LEFT ∨ d = Direction.RIGHT ∨ d = Direction.UP
     ∨ d = Direction.DOWN))

@[simp] theorem getD_elt_0 (a : ℤ) (l : List ℤ) : (a :: l).getD 0 0 = a := rfl

@[simp] theorem getD_elt_1 (a b : ℤ) (l : List ℤ) :
    (a :: b :: l).getD 1 0 = b := rfl

@[simp] theorem getD_elt_2 (a b c : ℤ) (l : List ℤ) :
    (a :: b :: c :: l).getD 2 0 = c := rfl

@[simp] theorem getD_elt_3 (a b c d : ℤ) (l : List ℤ) :
    (a :: b :: c :: d :: l).getD 3 0 = d := rfl

@[simp] theorem getD_elt_4 (a b c d e : ℤ) (l : List ℤ) :
    (a :: b :: c :: d :: e :: l).getD 4 0 = e := rfl

@[simp] theorem getD_elt_5 (a b c d e f : ℤ) (l : List ℤ) :
    (a :: b :: c :: d :: e :: f :: l).getD 5 0 = f := rfl

@[simp] theorem getD_elt_6 (a b c d e f g : ℤ) (l : List ℤ) :
    (a :: b :: c :: d :: e :: f :: g :: l).getD 6 0 = g := rfl

@[simp] theorem getD_elt_7 (a b c d e f g h : ℤ) (l : List ℤ) :
    (a :: b :: c :: d :: e :: f :: g :: h :: l).getD 7 0 = h := rfl

@[simp] theorem getD_elt_8 (a b c d e f g h i : ℤ) (l : List ℤ) :
    (a :: b :: c :: d :: e :: f :: g :: h :: i :: l).getD 8 0 = i := rfl

@[simp] theorem getD_elt_9 (a b c d e f g h i j : ℤ) (l : List ℤ) :
    (a :: b :: c :: d :: e :: f :: g :: h :: i :: j :: l).getD 9 0 = j := rfl

@[simp] theorem getD_elt_10 (a b c d e f g h i j k : ℤ) (l : List ℤ) :
    (a :: b :: c :: d :: e :: f :: g :: h :: i :: j :: k :: l).getD 10 0
      = k := rfl

@[simp] theorem getD_elt_11 (a b c d e f g h i j k m : ℤ) (l : List ℤ) :
    (a :: b :: c :: d :: e :: f :: g :: h :: i :: j :: k :: m :: l).getD 11 0
      = m := rfl

/-- Millimetre-to-pixel conversion of the literal default values. -/
theorem mm_to_px_75 : mm_to_px 75 = 886 := by
  norm_num [mm_to_px, pythonRound, DPI]

theorem mm_to_px_104 : mm_to_px 104 = 1228 := by
  norm_num [mm_to_px, pythonRound, DPI]

theorem mm_to_px_100 : mm_to_px 100 = 1181 := by
  norm_num [mm_to_px, pythonRound, DPI]

theorem mm_to_px_2 : mm_to_px 2 = 24 := by
  norm_num [mm_to_px, pythonRound, DPI]

theorem mm_to_px_10 : mm_to_px 10 = 118 := by
  norm_num [mm_to_px, pythonRound, DPI]

theorem mm_to_px_15 : mm_to_px 15 = 177 := by
  norm_num [mm_to_px, pythonRound, DPI]

theorem mm_to_px_5 : mm_to_px 5 = 59 := by
  norm_num [mm_to_px, pythonRound, DPI]

/-- Monotonicity of the Python rounding function. -/
theorem pythonRound_mono {a b : ℚ} (hab : a ≤ b) :
    pythonRound a ≤ pythonRound b := by
  unfold pythonRound
  split_ifs with ha hb hb
  · exact Int.floor_le_floor (by linarith)
  · exact absurd (le_trans ha hab) hb
  · have h1 : (⌈a - 1/2⌉ : ℤ) ≤ 0 := by
      rw [Int.ceil_le]
      push_neg at ha
      push_cast
      linarith
    have h2 : (0 : ℤ) ≤ ⌊b + 1/2⌋ := by
      rw [Int.le_floor]
      push_cast
      linarith
    omega
  · exact Int.ceil_le_ceil (by linarith)

/-- The Python rounding function agrees with rounding half away from zero. -/
theorem pythonRound_eq_away (q : ℚ) :
    pythonRound q = round_half_away_from_zero q := by
  unfold pythonRound round_half_away_from_zero
  split_ifs with h
  · rfl
  · rw [show -q + 1/2 = -(q - 1/2) by ring, Int.floor_neg, neg_neg]

/-- C1: for box dimensions (75,104,100) mm = (886,1228,1181) px and
material parameters thickness=24, flap=118, inside=177, crop size=59,
crop distance=24 px, the wrap coordinate generator returns exactly the
x breakpoint sequence (0,83,260,284,780,898,1784,1902,2398,2422,2599,2682). -/
theorem wrap_coordinates_default_xs :
    (wrap_coordinates 886 1228 1181 24 177 118 59 24).1
      = [0, 83, 260, 284, 780, 898, 1784, 1902, 2398, 2422, 2599, 2682] := by
  decide

/-- C2: for box pixel dimensions (886,1228,1181) the template
coordinate generator returns exactly xs=(0,1181,2067,3248,4134) and
ys=(0,1181,1795,2409,3590); in general the strip midline y2 equals
y1 plus the floor of half the box height. -/
theorem template_coordinates_default :
    template_coordinates 886 1228 1181
      = ([0, 1181, 2067, 3248, 4134], [0, 1181, 1795, 2409, 3590])
    ∧ ∀ bw bh bd : ℤ,
        (template_coordinates bw bh bd).2.getD 2 0
          = (template_coordinates bw bh bd).2.getD 1 0 + Int.fdiv bh 2 := by
  constructor
  · decide
  · intro bw bh bd
    simp [template_coordinates]

/-- C3: mm_to_px rounds half away from zero, is monotonic
non-decreasing, and takes the documented values on the literal inputs. -/
theorem mm_to_px_spec :
    (∀ mm : ℚ, mm_to_px mm = round_half_away_from_zero (mm / 25.4 * 300))
    ∧ (∀ a b : ℚ, a ≤ b → mm_to_px a ≤ mm_to_px b)
    ∧ mm_to_px 75 = 886 ∧ mm_to_px 104 = 1228 ∧ mm_to_px 100 = 1181
    ∧ mm_to_px 2 = 24 ∧ mm_to_px 10 = 118 ∧ mm_to_px 15 = 177
    ∧ mm_to_px 5 = 59 := by
  refine ⟨?_, ?_, mm_to_px_75, mm_to_px_104, mm_to_px_100,
    mm_to_px_2, mm_to_px_10, mm_to_px_15, mm_to_px_5⟩
  · intro mm
    rw [mm_to_px, pythonRound_eq_away, DPI]
  · intro a b hab
    unfold mm_to_px DPI
    exact pythonRound_mono (by gcongr)

/-- Witness for C3 at concrete inputs. -/
theorem mm_to_px_spec_witness :
    (3 : ℚ) ≤ 7 ∧ mm_to_px 3 ≤ mm_to_px 7 ∧ mm_to_px 75 = 886 :=
  ⟨by norm_num, mm_to_px_spec.2.1 3 7 (by norm_num), mm_to_px_spec.2.2.1⟩

/-- C9: both 12-point sequences of the wrap coordinate generator are
palindromic about their midline: entry i plus entry 11-i equals the
last entry, for every input whatsoever. -/
theorem wrap_coordinates_symmetric
    (bw bh bd th ins fl cs cd : ℤ) (i : Fin 12) :
    (wrap_coordinates bw bh bd th ins fl cs cd).1.getD (i : ℕ) 0
      + (wrap_coordinates bw bh bd th ins fl cs cd).1.getD (11 - (i : ℕ)) 0
      = (wrap_coordinates bw bh bd th ins fl cs cd).1.getD 11 0
    ∧ (wrap_coordinates bw bh bd th ins fl cs cd).2.getD (i : ℕ) 0
      + (wrap_coordinates bw bh bd th ins fl cs cd).2.getD (11 - (i : ℕ)) 0
      = (wrap_coordinates bw bh bd th ins fl cs cd).2.getD 11 0 := by
  fin_cases i <;> refine ⟨?_, ?_⟩ <;> (simp [wrap_coordinates]; try ring)

/-- Witness for C9 at the default configuration and index 3. -/
theorem wrap_coordinates_symmetric_witness :
    (wrap_coordinates 886 1228 1181 24 177 118 59 24).1.getD
        ((3 : Fin 12) : ℕ) 0
      + (wrap_coordinates 886 1228 1181 24 177 118 59 24).1.getD
        (11 - ((3 : Fin 12) : ℕ)) 0
      = (wrap_coordinates 886 1228 1181 24 177 118 59 24).1.getD 11 0
    ∧ (wrap_coordinates 886 1228 1181 24 177 118 59 24).2.getD
        ((3 : Fin 12) : ℕ) 0
      + (wrap_coordinates 886 1228 1181 24 177 118 59 24).2.getD
        (11 - ((3 : Fin 12) : ℕ)) 0
      = (wrap_coordinates 886 1228 1181 24 177 118 59 24).2.getD 11 0 :=
  wrap_coordinates_symmetric 886 1228 1181 24 177 118 59 24 3

/-- Counterexample to C4 as stated: box (5,4,5), thickness 1, inside 1,
flap 3, crop size 1, crop distance 1 satisfies every hypothesis of the
claim (positive box, non-negative materials, flap at most
half box height plus thickness) yet neither breakpoint sequence is
strictly increasing: x4 drops below x3 and y6 below y5.  The generator
still returns the grid, checking nothing. -/
theorem wrap_coordinates_not_increasing_counterexample :
    ((0:ℤ) < 5 ∧ (0:ℤ) ≤ 1 ∧ (3:ℤ) ≤ Int.fdiv 4 2 + 1)
    ∧ (wrap_coordinates 5 4 5 1 1 3 1 1).1
        = [0, 2, 3, 4, 3, 6, 11, 14, 13, 14, 15, 17]
    ∧ strictly_increasing ((wrap_coordinates 5 4 5 1 1 3 1 1).1.drop 1)
        = false
    ∧ strictly_increasing ((wrap_coordinates 5 4 5 1 1 3 1 1).2.drop 1)
        = false := by
  decide

/-- C4 amended: with positive box dimensions, positive thickness,
inside size, flap size and crop mark size, non-negative crop mark
distance, flap size strictly below half the box height and twice the
flap size strictly below the box depth, both wrap breakpoint sequences
are strictly increasing (the claimed bound flap at most half box
height plus thickness is not sufficient, see the counterexample). -/
theorem wrap_coordinates_strictly_increasing
    (bw bh bd th ins fl cs cd : ℤ)
    (hbw : 0 < bw) (hbd : 0 < bd) (hth : 0 < th) (hins : 0 < ins)
    (hfl : 0 < fl) (hcs : 0 < cs) (hcd : 0 ≤ cd)
    (hflap : fl < Int.fdiv bh 2) (hflap2 : 2 * fl < bd) :
    strictly_increasing (wrap_coordinates bw bh bd th ins fl cs cd).1 = true
    ∧ strictly_increasing
        (wrap_coordinates bw bh bd th ins fl cs cd).2 = true := by
  have hb2 := Int.fdiv_eq_ediv bh (by norm_num : (0:ℤ) ≤ 2)
  rw [hb2] at hflap
  constructor <;> (simp [wrap_coordinates, strictly_increasing, hb2]; omega)

/-- Witness for the amended C4 at the default configuration. -/
theorem wrap_coordinates_strictly_increasing_witness :
    ((0:ℤ) < 886 ∧ (0:ℤ) < 1181 ∧ (0:ℤ) < 24 ∧ (0:ℤ) < 177
      ∧ (0:ℤ) < 118 ∧ (0:ℤ) < 59 ∧ (0:ℤ) ≤ 24
      ∧ (118:ℤ) < Int.fdiv 1228 2 ∧ (2:ℤ) * 118 < 1181)
    ∧ strictly_increasing
        (wrap_coordinates 886 1228 1181 24 177 118 59 24).1 = true
    ∧ strictly_increasing
        (wrap_coordinates 886 1228 1181 24 177 118 59 24).2 = true :=
  ⟨by decide,
   (wrap_coordinates_strictly_increasing 886 1228 1181 24 177 118 59 24
     (by decide) (by decide) (by decide) (by decide) (by decide)
     (by decide) (by decide) (by decide) (by decide)).1,
   (wrap_coordinates_strictly_increasing 886 1228 1181 24 177 118 59 24
     (by decide) (by decide) (by decide) (by decide) (by decide)
     (by decide) (by decide) (by decide) (by decide)).2⟩

/-- Property of C5: every source rectangle of the top table is
disjoint from every source rectangle of the bottom table. -/
def tables_cross_disjoint (bw bh bd th ins fl cs cd : ℤ) : Prop :=
  ∀ d1 ∈ copy_and_rotate_definitions_top bw bh bd th ins fl cs cd,
    ∀ d2 ∈ copy_and_rotate_definitions_bottom bw bh bd th ins fl cs cd,
      rect_disjoint d1.src d2.src

/-- Property of C5: both tables contain a placement whose destination
anchor is the shared corner point (dst_xs[5], dst_ys[4]). -/
def tables_share_anchor (bw bh bd th ins fl cs cd : ℤ) : Prop :=
  (∃ d1 ∈ copy_and_rotate_definitions_top bw bh bd th ins fl cs cd,
     d1.dstX = (wrap_coordinates bw bh bd th ins fl cs cd).1.getD 5 0
     ∧ d1.dstY = (wrap_coordinates bw bh bd th ins fl cs cd).2.getD 4 0)
  ∧ (∃ d2 ∈ copy_and_rotate_definitions_bottom bw bh bd th ins fl cs cd,
     d2.dstX = (wrap_coordinates bw bh bd th ins fl cs cd).1.getD 5 0
     ∧ d2.dstY = (wrap_coordinates bw bh bd th ins fl cs cd).2.getD 4 0)

/-- Counterexample to C5 as stated: at the default configuration
(886,1228,1181) px box with thickness 24, inside 177, flap 118, crop
59/24 px, the Left source rectangle of the top table and the Left
source rectangle of the bottom table both contain the template pixel
(0,1700): the two tables read overlapping template regions whenever
thickness + inside_size exceeds the odd remainder of the box height,
in particular at the default configuration. -/
theorem tables_not_disjoint_default :
    ¬ tables_cross_disjoint 886 1228 1181 24 177 118 59 24 := by
  intro h
  have h1 : (⟨⟨0, 1181, 1181, 815⟩, 898, 898, 2, 90⟩ : CopyDef)
      ∈ copy_and_rotate_definitions_top 886 1228 1181 24 177 118 59 24 := by
    decide
  have h2 : (⟨⟨0, 1594, 1181, 815⟩, 898, 898, 2, 270⟩ : CopyDef)
      ∈ copy_and_rotate_definitions_bottom 886 1228 1181 24 177 118 59 24 := by
    decide
  exact h _ h1 _ h2 0 1700 ⟨by decide, by decide⟩

/-- C5 amended: the source rectangles of opposite tables are pairwise
disjoint only under the extra condition that twice the transferred
half height (half box height + thickness + inside size) does not
exceed the box height; the shared destination anchor (dst_xs[5],
dst_ys[4]) part of the claim holds as stated. -/
theorem tables_disjoint_amended
    (bw bh bd th ins fl cs cd : ℤ)
    (hbw : 0 < bw) (hbh : 0 < bh) (hbd : 0 < bd)
    (hth : 0 ≤ th) (hins : 0 ≤ ins)
    (hsep : 2 * (Int.fdiv bh 2 + th + ins) ≤ bh) :
    tables_cross_disjoint bw bh bd th ins fl cs cd
    ∧ tables_share_anchor bw bh bd th ins fl cs cd := by
  have hb2 := Int.fdiv_eq_ediv bh (by norm_num : (0:ℤ) ≤ 2)
  rw [hb2] at hsep
  constructor
  · intro d1 h1 d2 h2
    simp [copy_and_rotate_definitions_top,
      copy_and_rotate_definitions_bottom, template_coordinates,
      wrap_coordinates, hb2] at h1 h2
    intro px py hc
    obtain ⟨hc1, hc2⟩ := hc
    rcases h1 with h1|h1|h1|h1|h1 <;> rcases h2 with h2|h2|h2|h2|h2 <;>
      (subst h1; subst h2; simp [Rect.containsPt] at hc1 hc2; omega)
  · constructor
    · simp only [tables_share_anchor, copy_and_rotate_definitions_top]
      exact ⟨_, List.mem_cons_self _ _, rfl, rfl⟩
    · simp only [tables_share_anchor, copy_and_rotate_definitions_bottom]
      exact ⟨_, List.mem_cons_self _ _, rfl, rfl⟩

/-- Witness for the amended C5 with zero thickness and inside size. -/
theorem tables_disjoint_amended_witness :
    ((0:ℤ) < 5 ∧ (0:ℤ) < 10 ∧ (0:ℤ) ≤ 0
      ∧ 2 * (Int.fdiv 10 2 + 0 + 0) ≤ (10:ℤ))
    ∧ tables_cross_disjoint 5 10 5 0 0 1 1 1
    ∧ tables_share_anchor 5 10 5 0 0 1 1 1 :=
  ⟨by decide,
   (tables_disjoint_amended 5 10 5 0 0 1 1 1 (by decide) (by decide)
     (by decide) (by decide) (by decide) (by decide)).1,
   (tables_disjoint_amended 5 10 5 0 0 1 1 1 (by decide) (by decide)
     (by decide) (by decide) (by decide) (by decide)).2⟩

/-- Property of C6: a rectangle is covered by a placement table when
every pixel of it lies in the destination bounding box of some row of
the table, wherever the backend happened to paste the floating
selection before it was moved. -/
def strip_covered_by (defs : List CopyDef) (s : Rect) : Prop :=
  ∀ left top px py : ℤ, s.containsPt px py →
    ∃ d ∈ defs, ∃ r : Rect, dest_bbox left top d = some r
      ∧ r.containsPt px py

/-- Property of C6: the four secondary flap strips have width
half_box_height_plus_extra and height flap_size, sit at the four
documented anchor points of the destination grid, are pasted with a
90 or 270 degree rotation, and every pixel they read lies inside the
union of the destination bounding boxes of the five primary
placements of either half. -/
def secondary_flaps_ok (bw bh bd th ins fl cs cd : ℤ) : Prop :=
  ((secondary_defs (wrap_coordinates bw bh bd th ins fl cs cd).1
      (wrap_coordinates bw bh bd th ins fl cs cd).2
      (Int.fdiv bh 2 + th + ins) fl).map (fun d => (d.src.x, d.src.y))
    = [((wrap_coordinates bw bh bd th ins fl cs cd).1.getD 1 0,
        (wrap_coordinates bw bh bd th ins fl cs cd).2.getD 4 0),
       ((wrap_coordinates bw bh bd th ins fl cs cd).1.getD 1 0,
        (wrap_coordinates bw bh bd th ins fl cs cd).2.getD 6 0),
       ((wrap_coordinates bw bh bd th ins fl cs cd).1.getD 6 0,
        (wrap_coordinates bw bh bd th ins fl cs cd).2.getD 4 0),
       ((wrap_coordinates bw bh bd th ins fl cs cd).1.getD 6 0,
        (wrap_coordinates bw bh bd th ins fl cs cd).2.getD 6 0)])
  ∧ ∀ d ∈ secondary_defs (wrap_coordinates bw bh bd th ins fl cs cd).1
        (wrap_coordinates bw bh bd th ins fl cs cd).2
        (Int.fdiv bh 2 + th + ins) fl,
      d.src.w = Int.fdiv bh 2 + th + ins ∧ d.src.h = fl
      ∧ (d.angle = 90 ∨ d.angle = 270)
      ∧ strip_covered_by
          (copy_and_rotate_definitions_top bw bh bd th ins fl cs cd) d.src
      ∧ strip_covered_by
          (copy_and_rotate_definitions_bottom bw bh bd th ins fl cs cd) d.src

/-- C6: for every configuration whose wrap grids are strictly
increasing, the four secondary flap placements read strips of width
half_box_height_plus_extra and height flap_size anchored at
(dst_xs[1],dst_ys[4]), (dst_xs[1],dst_ys[6]), (dst_xs[6],dst_ys[4]),
(dst_xs[6],dst_ys[6]), each strip lies entirely inside the union of
the destination bounding boxes of the five primary placements of the
same half, and each is pasted rotated by 90 or 270 degrees. -/
theorem secondary_flaps_spec
    (bw bh bd th ins fl cs cd : ℤ)
    (hx : strictly_increasing
        (wrap_coordinates bw bh bd th ins fl cs cd).1 = true)
    (hy : strictly_increasing
        (wrap_coordinates bw bh bd th ins fl cs cd).2 = true) :
    secondary_flaps_ok bw bh bd th ins fl cs cd := by
  have hb2 := Int.fdiv_eq_ediv bh (by norm_num : (0:ℤ) ≤ 2)
  unfold secondary_flaps_ok
  simp only [hb2]
  simp only [wrap_coordinates, strictly_increasing, Bool.and_eq_true,
    decide_eq_true_eq, hb2] at hx hy
  constructor
  · simp [secondary_defs]
  · intro d hd
    simp only [secondary_defs, wrap_coordinates, hb2,
      getD_elt_1, getD_elt_4, getD_elt_5, getD_elt_6, getD_elt_7,
      List.mem_cons, List.not_mem_nil, or_false] at hd
    rcases hd with hd|hd|hd|hd <;>
      (subst hd;
       refine ⟨rfl, rfl, by norm_num, ?_, ?_⟩ <;>
         (intro left top px py hpt;
          simp only [Rect.containsPt] at hpt;
          simp only [copy_and_rotate_definitions_top,
            copy_and_rotate_definitions_bottom, template_coordinates,
            wrap_coordinates, hb2, getD_elt_0, getD_elt_1, getD_elt_2,
            getD_elt_3, getD_elt_4, getD_elt_5, getD_elt_6, getD_elt_7,
            getD_elt_10]))
    -- strip (dst_xs[1], dst_ys[4]) inside the top Left placement
    · refine ⟨_, List.mem_cons_of_mem _ (List.mem_cons_self _ _), ?_⟩
      norm_num [dest_bbox, apply_move, move_drawable_to, rotatedSize,
        Corner.TOP_LEFT, Corner.TOP_RIGHT, Corner.BOTTOM_LEFT,
        Corner.BOTTOM_RIGHT, Corner.CENTER, Rect.containsPt]
      omega
    -- strip (dst_xs[1], dst_ys[4]) inside the bottom Left placement
    · refine ⟨_, List.mem_cons_self _ _, ?_⟩
      norm_num [dest_bbox, apply_move, move_drawable_to, rotatedSize,
        Corner.TOP_LEFT, Corner.TOP_RIGHT, Corner.BOTTOM_LEFT,
        Corner.BOTTOM_RIGHT, Corner.CENTER, Rect.containsPt]
      omega
    -- strip (dst_xs[1], dst_ys[6]) inside the top Left placement
    · refine ⟨_, List.mem_cons_of_mem _ (List.mem_cons_self _ _), ?_⟩
      norm_num [dest_bbox, apply_move, move_drawable_to, rotatedSize,
        Corner.TOP_LEFT, Corner.TOP_RIGHT, Corner.BOTTOM_LEFT,
        Corner.BOTTOM_RIGHT, Corner.CENTER, Rect.containsPt]
      omega
    -- strip (dst_xs[1], dst_ys[6]) inside the bottom Left placement
    · refine ⟨_, List.mem_cons_self _ _, ?_⟩
      norm_num [dest_bbox, apply_move, move_drawable_to, rotatedSize,
        Corner.TOP_LEFT, Corner.TOP_RIGHT, Corner.BOTTOM_LEFT,
        Corner.BOTTOM_RIGHT, Corner.CENTER, Rect.containsPt]
      omega
    -- strip (dst_xs[6], dst_ys[4]) inside the top Right placement
    · refine ⟨_, List.mem_cons_of_mem _ (List.mem_cons_of_mem _
        (List.mem_cons_of_mem _ (List.mem_cons_self _ _))), ?_⟩
      norm_num [dest_bbox, apply_move, move_drawable_to, rotatedSize,
        Corner.TOP_LEFT, Corner.TOP_RIGHT, Corner.BOTTOM_LEFT,
        Corner.BOTTOM_RIGHT, Corner.CENTER, Rect.containsPt]
      omega
    -- strip (dst_xs[6], dst_ys[4]) inside the bottom Right placement
    · refine ⟨_, List.mem_cons_of_mem _ (List.mem_cons_of_mem _
        (List.mem_cons_self _ _)), ?_⟩
      norm_num [dest_bbox, apply_move, move_drawable_to, rotatedSize,
        Corner.TOP_LEFT, Corner.TOP_RIGHT, Corner.BOTTOM_LEFT,
        Corner.BOTTOM_RIGHT, Corner.CENTER, Rect.containsPt]
      omega
    -- strip (dst_xs[6], dst_ys[6]) inside the top Right placement
    · refine ⟨_, List.mem_cons_of_mem _ (List.mem_cons_of_mem _
        (List.mem_cons_of_mem _ (List.mem_cons_self _ _))), ?_⟩
      norm_num [dest_bbox, apply_move, move_drawable_to, rotatedSize,
        Corner.TOP_LEFT, Corner.TOP_RIGHT, Corner.BOTTOM_LEFT,
        Corner.BOTTOM_RIGHT, Corner.CENTER, Rect.containsPt]
      omega
    -- strip (dst_xs[6], dst_ys[6]) inside the bottom Right placement
    · refine ⟨_, List.mem_cons_of_mem _ (List.mem_cons_of_mem _
        (List.mem_cons_self _ _)), ?_⟩
      norm_num [dest_bbox, apply_move, move_drawable_to, rotatedSize,
        Corner.TOP_LEFT, Corner.TOP_RIGHT, Corner.BOTTOM_LEFT,
        Corner.BOTTOM_RIGHT, Corner.CENTER, Rect.containsPt]
      omega

/-- Witness for C6 at the default configuration. -/
theorem secondary_flaps_spec_witness :
    strictly_increasing
        (wrap_coordinates 886 1228 1181 24 177 118 59 24).1 = true
    ∧ strictly_increasing
        (wrap_coordinates 886 1228 1181 24 177 118 59 24).2 = true
    ∧ secondary_flaps_ok 886 1228 1181 24 177 118 59 24 :=
  ⟨by decide, by decide,
   secondary_flaps_spec 886 1228 1181 24 177 118 59 24
     (by decide) (by decide)⟩

/-- C7: whenever the supplied source image size differs from the size
predicted by the template coordinate generator, create_wraps reports
the mismatch with expected and actual sizes in pixels and millimetres
and returns with zero drawing operations (no traces are produced). -/
theorem create_wraps_size_mismatch
    (srcW srcH : ℤ)
    (bw_mm bh_mm bd_mm th_mm fl_mm ins_mm cs_mm cd_mm : ℚ)
    (h : srcW ≠ predicted_width (mm_to_px bw_mm) (mm_to_px bh_mm)
           (mm_to_px bd_mm)
       ∨ srcH ≠ predicted_height (mm_to_px bw_mm) (mm_to_px bh_mm)
           (mm_to_px bd_mm)) :
    create_wraps srcW srcH bw_mm bh_mm bd_mm th_mm fl_mm ins_mm cs_mm cd_mm
      = Except.error
          ⟨predicted_width (mm_to_px bw_mm) (mm_to_px bh_mm) (mm_to_px bd_mm),
           predicted_height (mm_to_px bw_mm) (mm_to_px bh_mm) (mm_to_px bd_mm),
           px_to_mm ((predicted_width (mm_to_px bw_mm) (mm_to_px bh_mm)
             (mm_to_px bd_mm) : ℤ) : ℚ),
           px_to_mm ((predicted_height (mm_to_px bw_mm) (mm_to_px bh_mm)
             (mm_to_px bd_mm) : ℤ) : ℚ),
           srcW, srcH, px_to_mm (srcW : ℚ), px_to_mm (srcH : ℚ)⟩ := by
  simp only [create_wraps]
  rw [if_pos h]

/-- Witness for C7: a 100 by 100 pixel source image against the
default 75 by 104 by 100 mm box. -/
theorem create_wraps_size_mismatch_witness :
    ((100:ℤ) ≠ predicted_width (mm_to_px 75) (mm_to_px 104) (mm_to_px 100)
      ∨ (100:ℤ) ≠ predicted_height (mm_to_px 75) (mm_to_px 104)
          (mm_to_px 100))
    ∧ create_wraps 100 100 75 104 100 2 10 15 5 2
      = Except.error
          ⟨predicted_width (mm_to_px 75) (mm_to_px 104) (mm_to_px 100),
           predicted_height (mm_to_px 75) (mm_to_px 104) (mm_to_px 100),
           px_to_mm ((predicted_width (mm_to_px 75) (mm_to_px 104)
             (mm_to_px 100) : ℤ) : ℚ),
           px_to_mm ((predicted_height (mm_to_px 75) (mm_to_px 104)
             (mm_to_px 100) : ℤ) : ℚ),
           100, 100, px_to_mm ((100:ℤ) : ℚ), px_to_mm ((100:ℤ) : ℚ)⟩ :=
  ⟨Or.inl (by norm_num [predicted_width, template_coordinates,
     mm_to_px_75, mm_to_px_104, mm_to_px_100]),
   create_wraps_size_mismatch 100 100 75 104 100 2 10 15 5 2
     (Or.inl (by norm_num [predicted_width, template_coordinates,
       mm_to_px_75, mm_to_px_104, mm_to_px_100]))⟩

/-- Helper for C8: a mark whose direction list has a valid prefix and
then an invalid direction draws the ticks of the valid prefix, then
reports a message and skips everything after the invalid direction. -/
theorem draw_mark_invalid_tail (bad_dir : ℤ) (rest : List ℤ)
    (x0 y0 s di : ℤ) (hb : ¬ Direction.valid bad_dir) :
    ∀ good : List ℤ, (∀ v ∈ good, Direction.valid v) →
      draw_mark (good ++ bad_dir :: rest) x0 y0 s di
        = draw_mark good x0 y0 s di ++ [Op.message] := by
  unfold Direction.valid at hb
  push_neg at hb
  obtain ⟨hd1, hd2, hd3, hd4⟩ := hb
  intro good
  induction good with
  | nil =>
    intro _
    simp [draw_mark, mark_rect, hd1, hd2, hd3, hd4]
  | cons v vs ih =>
    intro hg
    have hv := hg v (List.mem_cons_self _ _)
    have hrest := fun u hu => hg u (List.mem_cons_of_mem _ hu)
    rcases hv with h|h|h|h <;> subst h <;>
      simp [draw_mark, mark_rect, Direction.LEFT, Direction.RIGHT,
        Direction.UP, Direction.DOWN, ih hrest]

/-- C8: an invalid corner value makes the placement report a message
and skip only the translation (the pasted region is still anchored,
untranslated); the rest of the sheet trace is unaffected and nothing
already drawn is removed; an invalid direction value makes a mark
report a message and skip the remaining directions of that same mark
only. -/
theorem invalid_enum_aborts_only_current_step
    (left top : ℤ) (dst_xs dst_ys : List ℤ) (hbpe fl cs cd : ℤ)
    (pre post : List CopyDef) (bad : CopyDef)
    (hbad : ¬ Corner.valid bad.corner) :
    copy_def_ops left top bad
      = [Op.selectRect bad.src, Op.copyVisible, Op.selectionNone, Op.paste]
        ++ (if bad.angle = 90 ∨ bad.angle = 180 ∨ bad.angle = 270
            then [Op.rotate bad.angle] else [])
        ++ [Op.message, Op.anchor]
    ∧ draw_trace left top dst_xs dst_ys hbpe fl cs cd (pre ++ bad :: post)
      = (pre.map (copy_def_ops left top)).flatten
        ++ copy_def_ops left top bad
        ++ (post.map (copy_def_ops left top)).flatten
        ++ sheet_rest left top dst_xs dst_ys hbpe fl cs cd
    ∧ (∀ (good : List ℤ) (bad_dir : ℤ) (rest : List ℤ) (x0 y0 : ℤ),
        (∀ v ∈ good, Direction.valid v) → ¬ Direction.valid bad_dir →
        draw_mark (good ++ bad_dir :: rest) x0 y0 cs cd
          = draw_mark good x0 y0 cs cd ++ [Op.message]) := by
  unfold Corner.valid at hbad
  push_neg at hbad
  obtain ⟨hb1, hb2, hb3, hb4, hb5⟩ := hbad
  refine ⟨?_, ?_, ?_⟩
  · simp [copy_def_ops, copy_and_rotate_rectangle, move_ops,
      move_drawable_to, hb1, hb2, hb3, hb4, hb5]
  · simp [draw_trace, List.map_append, List.flatten_append,
      List.append_assoc]
  · intro good bad_dir rest x0 y0 hg hb
    exact draw_mark_invalid_tail bad_dir rest x0 y0 cs cd hb good hg

/-- Witness for C8 with the invalid corner value 7. -/
theorem invalid_enum_aborts_only_current_step_witness :
    (¬ Corner.valid ((7:ℤ)))
    ∧ (copy_def_ops 0 0 ⟨⟨0, 0, 1, 1⟩, 0, 0, 7, 0⟩
        = [Op.selectRect ⟨0, 0, 1, 1⟩, Op.copyVisible, Op.selectionNone,
           Op.paste]
          ++ (if (0:ℤ) = 90 ∨ (0:ℤ) = 180 ∨ (0:ℤ) = 270
              then [Op.rotate 0] else [])
          ++ [Op.message, Op.anchor])
    ∧ (draw_trace 0 0 [] [] 0 0 0 0
          ([] ++ (⟨⟨0, 0, 1, 1⟩, 0, 0, 7, 0⟩ : CopyDef) :: [])
        = (([] : List CopyDef).map (copy_def_ops 0 0)).flatten
          ++ copy_def_ops 0 0 ⟨⟨0, 0, 1, 1⟩, 0, 0, 7, 0⟩
          ++ (([] : List CopyDef).map (copy_def_ops 0 0)).flatten
          ++ sheet_rest 0 0 [] [] 0 0 0 0)
    ∧ (∀ (good : List ℤ) (bad_dir : ℤ) (rest : List ℤ) (x0 y0 : ℤ),
        (∀ v ∈ good, Direction.valid v) → ¬ Direction.valid bad_dir →
        draw_mark (good ++ bad_dir :: rest) x0 y0 0 0
          = draw_mark good x0 y0 0 0 ++ [Op.message]) :=
  ⟨by decide,
   invalid_enum_aborts_only_current_step 0 0 [] [] 0 0 0 0 [] []
     ⟨⟨0, 0, 1, 1⟩, 0, 0, 7, 0⟩ (by decide)⟩

/-- C10: a rotation angle outside 90, 180, 270 (0 as well as invalid
values such as 45) causes no rotation operation and no reported
message: the region is pasted with its original size, moved (assuming
a valid corner) and anchored normally. -/
theorem copy_and_rotate_out_of_range_angle
    (left top : ℤ) (src : Rect) (dstX dstY corner angle : ℤ)
    (ha : ¬(angle = 90 ∨ angle = 180 ∨ angle = 270))
    (hc : Corner.valid corner) :
    copy_and_rotate_rectangle left top src dstX dstY corner angle
      = [Op.selectRect src, Op.copyVisible, Op.selectionNone, Op.paste]
        ++ move_ops left top src.w src.h corner dstX dstY
        ++ [Op.anchor]
    ∧ (∀ a : ℤ, Op.rotate a ∉
        copy_and_rotate_rectangle left top src dstX dstY corner angle)
    ∧ Op.message ∉
        copy_and_rotate_rectangle left top src dstX dstY corner angle := by
  have h90 : angle ≠ 90 := fun hh => ha (Or.inl hh)
  have h180 : angle ≠ 180 := fun hh => ha (Or.inr (Or.inl hh))
  have h270 : angle ≠ 270 := fun hh => ha (Or.inr (Or.inr hh))
  refine ⟨?_, ?_, ?_⟩ <;>
    (rcases hc with h|h|h|h|h <;> subst h) <;>
    simp [copy_and_rotate_rectangle, move_ops, move_drawable_to,
      rotatedSize, Corner.TOP_LEFT, Corner.TOP_RIGHT, Corner.BOTTOM_LEFT,
      Corner.BOTTOM_RIGHT, Corner.CENTER, h90, h180, h270]

/-- Witness for C10 with angle 45 and the top-left corner. -/
theorem copy_and_rotate_out_of_range_angle_witness :
    (¬((45:ℤ) = 90 ∨ (45:ℤ) = 180 ∨ (45:ℤ) = 270))
    ∧ Corner.valid 1
    ∧ (copy_and_rotate_rectangle 0 0 ⟨0, 0, 3, 4⟩ 5 6 1 45
        = [Op.selectRect ⟨0, 0, 3, 4⟩, Op.copyVisible, Op.selectionNone,
           Op.paste]
          ++ move_ops 0 0 3 4 1 5 6
          ++ [Op.anchor])
    ∧ (∀ a : ℤ, Op.rotate a ∉ copy_and_rotate_rectangle 0 0 ⟨0, 0, 3, 4⟩ 5 6 1 45)
    ∧ Op.message ∉ copy_and_rotate_rectangle 0 0 ⟨0, 0, 3, 4⟩ 5 6 1 45 :=
  ⟨by decide, by decide,
   (copy_and_rotate_out_of_range_angle 0 0 ⟨0, 0, 3, 4⟩ 5 6 1 45
     (by decide) (by decide)).1,
   (copy_and_rotate_out_of_range_angle 0 0 ⟨0, 0, 3, 4⟩ 5 6 1 45
     (by decide) (by decide)).2.1,
   (copy_and_rotate_out_of_range_angle 0 0 ⟨0, 0, 3, 4⟩ 5 6 1 45
     (by decide) (by decide)).2.2⟩

end Boxwrap
